import Mathlib

/-!
Verification of the CompanionWinRT error-translation and image-stream wrapper
layer, embedded shallowly from `companionWinRT/utils/CompanionError.h` and
`CompanionWinRT/input/ImageStream.h`.
-/

namespace CompanionWinRT

/--
The native error enumeration `Companion::Error::Code` of the wrapped
libCompanion library.  The library is an external dependency, so only the
twelve enumerator names referenced by the wrapper's translation switch are
known here; `other n` stands for any further value the external enumeration
(whose underlying integer type admits values beyond the named enumerators)
may carry, i.e. a native code with no entry in the wrapper's static table.
-/
inductive NativeCode where
  | image_not_found
  | dimension_error
  | template_dimension_error
  | feature_detector_not_found
  | descriptor_extractor_not_found
  | descriptor_matcher_not_found
  | wrong_model_type
  | invalid_companion_config
  | video_src_not_set
  | invalid_video_src
  | no_image_processing_algo_set
  | no_handler_set
  | other (n : Nat)
deriving DecidableEq, Repr

/-- A native code is mapped iff it is one of the twelve named enumerators
that have a case in the wrapper's translation switch. -/
def NativeCode.isMapped : NativeCode → Bool
  | .other _ => false
  | _ => true

/--
The platform enumeration `public enum class ErrorCode` (user-defined
HRESULTs).  A C++ `enum class` value is any value of the underlying integer
type, so the type is embedded as a wrapper around the numeric HRESULT; the
declared enumerators are the seventeen named values below, starting at
`0x80000100` and incrementing.
-/
structure ErrorCode where
  val : Nat
deriving DecidableEq, Repr

/-- `ErrorCode::unknown_error = 0x80000100`. -/
def ErrorCode.unknown_error : ErrorCode := ⟨0x80000100⟩

/-- `ErrorCode::image_not_found`. -/
def ErrorCode.image_not_found : ErrorCode := ⟨0x80000101⟩

/-- `ErrorCode::dimension_error`. -/
def ErrorCode.dimension_error : ErrorCode := ⟨0x80000102⟩

/-- `ErrorCode::template_dimension_error`. -/
def ErrorCode.template_dimension_error : ErrorCode := ⟨0x80000103⟩

/-- `ErrorCode::feature_detector_not_found`. -/
def ErrorCode.feature_detector_not_found : ErrorCode := ⟨0x80000104⟩

/-- `ErrorCode::descriptor_extractor_not_found`. -/
def ErrorCode.descriptor_extractor_not_found : ErrorCode := ⟨0x80000105⟩

/-- `ErrorCode::descriptor_matcher_not_found`. -/
def ErrorCode.descriptor_matcher_not_found : ErrorCode := ⟨0x80000106⟩

/-- `ErrorCode::wrong_model_type`. -/
def ErrorCode.wrong_model_type : ErrorCode := ⟨0x80000107⟩

/-- `ErrorCode::invalid_companion_config`. -/
def ErrorCode.invalid_companion_config : ErrorCode := ⟨0x80000108⟩

/-- `ErrorCode::video_src_not_set`. -/
def ErrorCode.video_src_not_set : ErrorCode := ⟨0x80000109⟩

/-- `ErrorCode::invalid_video_src`. -/
def ErrorCode.invalid_video_src : ErrorCode := ⟨0x8000010A⟩

/-- `ErrorCode::no_image_processing_algo_set`. -/
def ErrorCode.no_image_processing_algo_set : ErrorCode := ⟨0x8000010B⟩

/-- `ErrorCode::no_handler_set`. -/
def ErrorCode.no_handler_set : ErrorCode := ⟨0x8000010C⟩

/-- `ErrorCode::model_not_added` (wrapper-local, no native counterpart). -/
def ErrorCode.model_not_added : ErrorCode := ⟨0x8000010D⟩

/-- `ErrorCode::recognition_not_found` (wrapper-local). -/
def ErrorCode.recognition_not_found : ErrorCode := ⟨0x8000010E⟩

/-- `ErrorCode::config_or_recognition_not_found` (wrapper-local). -/
def ErrorCode.config_or_recognition_not_found : ErrorCode := ⟨0x8000010F⟩

/-- `ErrorCode::objectdetection_not_found` (wrapper-local). -/
def ErrorCode.objectdetection_not_found : ErrorCode := ⟨0x80000110⟩

/-- `ErrorCode::model_path_not_set` (wrapper-local). -/
def ErrorCode.model_path_not_set : ErrorCode := ⟨0x80000111⟩

/-- The seventeen declared enumerators of `ErrorCode`. -/
def ErrorCode.declared : List ErrorCode :=
  [ErrorCode.unknown_error, ErrorCode.image_not_found, ErrorCode.dimension_error,
   ErrorCode.template_dimension_error, ErrorCode.feature_detector_not_found,
   ErrorCode.descriptor_extractor_not_found, ErrorCode.descriptor_matcher_not_found,
   ErrorCode.wrong_model_type, ErrorCode.invalid_companion_config,
   ErrorCode.video_src_not_set, ErrorCode.invalid_video_src,
   ErrorCode.no_image_processing_algo_set, ErrorCode.no_handler_set,
   ErrorCode.model_not_added, ErrorCode.recognition_not_found,
   ErrorCode.config_or_recognition_not_found, ErrorCode.objectdetection_not_found,
   ErrorCode.model_path_not_set]

/-- Membership in the declared enumerator set, as a Boolean. -/
def ErrorCode.isDeclared (e : ErrorCode) : Bool :=
  decide (e ∈ ErrorCode.declared)

/-- The sixteen `ErrorCode` values that have an explicit `case` label in the
switch of `CompanionErrorUWP::getError` (every declared enumerator except
`unknown_error`). -/
def ErrorCode.hasCase (e : ErrorCode) : Bool :=
  decide (e ∈
    [ErrorCode.descriptor_extractor_not_found, ErrorCode.descriptor_matcher_not_found,
     ErrorCode.dimension_error, ErrorCode.feature_detector_not_found,
     ErrorCode.image_not_found, ErrorCode.template_dimension_error,
     ErrorCode.wrong_model_type, ErrorCode.invalid_companion_config,
     ErrorCode.video_src_not_set, ErrorCode.invalid_video_src,
     ErrorCode.no_image_processing_algo_set, ErrorCode.no_handler_set,
     ErrorCode.model_not_added, ErrorCode.recognition_not_found,
     ErrorCode.config_or_recognition_not_found, ErrorCode.objectdetection_not_found,
     ErrorCode.model_path_not_set])

/-- The five wrapper-local `ErrorCode` values declared after the
`// additional error codes` comment, which have no native counterpart. -/
def ErrorCode.isWrapperLocal (e : ErrorCode) : Bool :=
  decide (e ∈
    [ErrorCode.model_not_added, ErrorCode.recognition_not_found,
     ErrorCode.config_or_recognition_not_found, ErrorCode.objectdetection_not_found,
     ErrorCode.model_path_not_set])

/--
Modelled from the spec: `ss2ps` (declared in `CompanionUtils.h`, whose text
is not available) converts a native `std::string` to a `Platform::String^`.
The spec treats this conversion as transparent — the message "obtained by
looking up the native error's own message table" — so at the level of
abstract strings it is the identity re-encoding.
-/
def ss2ps (s : String) : String := s

/--
`CompanionErrorUWP::getError`, the platform-code-to-message lookup.  The
native message table `Companion::Error::getError` belongs to the external
library, so it is a parameter `ng`.  The C++ body initialises the result to
`"Unknown Error"` and lets a `switch` on `code` overwrite it, which is the
if-chain below with the initial value as the final else.
-/
def CompanionErrorUWP.getError (ng : NativeCode → String) (code : ErrorCode) : String :=
  if code = ErrorCode.descriptor_extractor_not_found then
    ss2ps (ng NativeCode.descriptor_extractor_not_found)
  else if code = ErrorCode.descriptor_matcher_not_found then
    ss2ps (ng NativeCode.descriptor_matcher_not_found)
  else if code = ErrorCode.dimension_error then
    ss2ps (ng NativeCode.dimension_error)
  else if code = ErrorCode.feature_detector_not_found then
    ss2ps (ng NativeCode.feature_detector_not_found)
  else if code = ErrorCode.image_not_found then
    ss2ps (ng NativeCode.image_not_found)
  else if code = ErrorCode.template_dimension_error then
    ss2ps (ng NativeCode.template_dimension_error)
  else if code = ErrorCode.wrong_model_type then
    ss2ps (ng NativeCode.wrong_model_type)
  else if code = ErrorCode.invalid_companion_config then
    ss2ps (ng NativeCode.invalid_companion_config)
  else if code = ErrorCode.video_src_not_set then
    ss2ps (ng NativeCode.video_src_not_set)
  else if code = ErrorCode.invalid_video_src then
    ss2ps (ng NativeCode.invalid_video_src)
  else if code = ErrorCode.no_image_processing_algo_set then
    ss2ps (ng NativeCode.no_image_processing_algo_set)
  else if code = ErrorCode.no_handler_set then
    ss2ps (ng NativeCode.no_handler_set)
  else if code = ErrorCode.model_not_added then
    "Could not add model to configuration."
  else if code = ErrorCode.recognition_not_found then
    "The handle to the CPUFeatureMatching object is null."
  else if code = ErrorCode.config_or_recognition_not_found then
    "At least one of the provided pointers/handles to the \x27Configuration\x27 and \x27CPUFeatureMatching\x27 objects is null."
  else if code = ErrorCode.objectdetection_not_found then
    "The handle that points to the \x27ObjectDetection\x27 objects is null."
  else if code = ErrorCode.model_path_not_set then
    "The handle that points to the model path is null."
  else
    "Unknown Error"

/--
`getErrorCode`, the native-to-platform translation.  The C++ body
initialises the result to `ErrorCode::unknown_error` and lets a `switch`
on the native code overwrite it; native codes with no `case` label (here
the `other` constructor) keep the initial value.
-/
def getErrorCode : NativeCode → ErrorCode
  | .descriptor_extractor_not_found => ErrorCode.descriptor_extractor_not_found
  | .descriptor_matcher_not_found => ErrorCode.descriptor_matcher_not_found
  | .dimension_error => ErrorCode.dimension_error
  | .feature_detector_not_found => ErrorCode.feature_detector_not_found
  | .image_not_found => ErrorCode.image_not_found
  | .template_dimension_error => ErrorCode.template_dimension_error
  | .wrong_model_type => ErrorCode.wrong_model_type
  | .invalid_companion_config => ErrorCode.invalid_companion_config
  | .video_src_not_set => ErrorCode.video_src_not_set
  | .invalid_video_src => ErrorCode.invalid_video_src
  | .no_image_processing_algo_set => ErrorCode.no_image_processing_algo_set
  | .no_handler_set => ErrorCode.no_handler_set
  | .other _ => ErrorCode.unknown_error

/--
Modelled from the spec: the native `Companion::Input::Image` object wrapped
by `ImageStream` (the native class belongs to the external library; the
wrapper's `ImageStream.cpp` implementation file is not available, only its
header).  Per the spec it is "one native image-stream object over those
paths": it carries the ordered list of image paths, with no validation of
the paths at construction time.
-/
structure NativeImage where
  paths : List String
deriving DecidableEq, Repr

/--
Modelled from the spec: the state of an `ImageStream` wrapper.
`imageStreamObj` mirrors the private member of the same name: `some obj`
while the wrapper owns its native object (Constructed), `none` after the
native object has been released (Destroyed).
-/
structure ImageStream where
  imageStreamObj : Option NativeImage
deriving DecidableEq, Repr

/--
Modelled from the spec: the marshalling of the boundary collection
`IVector<Platform::String^>^` into the native path list, reading the
index-accessible sequence element by element in index order.
-/
def marshalPaths (v : List String) : List String :=
  (List.range v.length).map (fun i => v.getD i "")

/--
Modelled from the spec: the constructor
`ImageStream::ImageStream(IVector<Platform::String^>^ imagePathList)`
(its implementation file is not under the available sources).  Per the
spec it "builds one native image-stream object over those paths" and
"does not itself validate path existence", so it is total: every path
list, the empty one included, yields the Constructed state.
-/
def ImageStream.construct (imagePathList : List String) : ImageStream :=
  ⟨some ⟨marshalPaths imagePathList⟩⟩

/--
Modelled from the spec: the destructor `ImageStream::~ImageStream` (its
implementation file is not under the available sources).  Per the spec it
"releases the owned native object"; the returned number counts the native
release operations performed by this call (one when an owned object is
present, zero otherwise).
-/
def ImageStream.destruct : ImageStream → ImageStream × Nat
  | ⟨some _⟩ => (⟨none⟩, 1)
  | ⟨none⟩ => (⟨none⟩, 0)

/-- The five literal message strings owned by the wrapper (the `case` arms
for the wrapper-local codes in `CompanionErrorUWP::getError`). -/
def wrapperLocalMessages : List String :=
  ["Could not add model to configuration.",
   "The handle to the CPUFeatureMatching object is null.",
   "At least one of the provided pointers/handles to the \x27Configuration\x27 and \x27CPUFeatureMatching\x27 objects is null.",
   "The handle that points to the \x27ObjectDetection\x27 objects is null.",
   "The handle that points to the model path is null."]

/-- The marshalling of the boundary path vector is the identity on the
ordered path list. -/
theorem marshalPaths_eq (v : List String) : marshalPaths v = v := by
  apply List.ext_getElem
  · simp [marshalPaths]
  · intro i h1 h2
    simp [marshalPaths, List.getD_eq_getElem?_getD, List.getElem?_eq_getElem h2]

/-- C1: for every native error code with a defined mapping in the static
table, translating it with `getErrorCode` and then looking up the message
with `CompanionErrorUWP::getError` yields the same string as the native
library message lookup `ng` applied to that native code directly. -/
theorem translate_then_message_eq_native (ng : NativeCode → String)
    (c : NativeCode) (h : c.isMapped = true) :
    CompanionErrorUWP.getError ng (getErrorCode c) = ng c := by
  cases c <;> first | rfl | exact Bool.noConfusion h

/-- Witness for C1 at the concrete native code `dimension_error`. -/
theorem translate_then_message_eq_native_witness :
    NativeCode.isMapped NativeCode.dimension_error = true ∧
    CompanionErrorUWP.getError (fun _ => "native message")
      (getErrorCode NativeCode.dimension_error) = "native message" :=
  ⟨rfl, translate_then_message_eq_native (fun _ => "native message")
    NativeCode.dimension_error rfl⟩

/-- C2: `getErrorCode` is total — every native code yields a declared
`ErrorCode` enumerator — and every native code without an entry in the
static table yields `ErrorCode::unknown_error`. -/
theorem getErrorCode_total_and_default (c : NativeCode) :
    (getErrorCode c).isDeclared = true ∧
    (c.isMapped = false → getErrorCode c = ErrorCode.unknown_error) := by
  cases c <;>
    exact ⟨rfl, fun h => by first | rfl | exact Bool.noConfusion h⟩

/-- Witness for C2 at the unmapped native code `other 5`. -/
theorem getErrorCode_total_and_default_witness :
    (getErrorCode (NativeCode.other 5)).isDeclared = true ∧
    getErrorCode (NativeCode.other 5) = ErrorCode.unknown_error :=
  ⟨(getErrorCode_total_and_default (NativeCode.other 5)).1,
   (getErrorCode_total_and_default (NativeCode.other 5)).2 rfl⟩

/-- Helper: every `ErrorCode` value without an explicit `case` arm in the
switch of `CompanionErrorUWP::getError` keeps the default initial value. -/
theorem getError_no_case_default (ng : NativeCode → String)
    (e : ErrorCode) (h : e.hasCase = false) :
    CompanionErrorUWP.getError ng e = "Unknown Error" := by
  simp only [ErrorCode.hasCase, decide_eq_false_iff_not, List.mem_cons,
    List.not_mem_nil, or_false] at h
  push_neg at h
  obtain ⟨h1, h2, h3, h4, h5, h6, h7, h8, h9, h10, h11, h12, h13, h14, h15,
    h16, h17⟩ := h
  simp only [CompanionErrorUWP.getError, if_neg h1, if_neg h2, if_neg h3,
    if_neg h4, if_neg h5, if_neg h6, if_neg h7, if_neg h8, if_neg h9,
    if_neg h10, if_neg h11, if_neg h12, if_neg h13, if_neg h14, if_neg h15,
    if_neg h16, if_neg h17]

/-- Helper: every `ErrorCode` value with an explicit `case` arm is one of
the seventeen enumerators carrying a case label. -/
theorem hasCase_elim (e : ErrorCode) (h : e.hasCase = true) :
    e = ErrorCode.descriptor_extractor_not_found ∨
    e = ErrorCode.descriptor_matcher_not_found ∨
    e = ErrorCode.dimension_error ∨
    e = ErrorCode.feature_detector_not_found ∨
    e = ErrorCode.image_not_found ∨
    e = ErrorCode.template_dimension_error ∨
    e = ErrorCode.wrong_model_type ∨
    e = ErrorCode.invalid_companion_config ∨
    e = ErrorCode.video_src_not_set ∨
    e = ErrorCode.invalid_video_src ∨
    e = ErrorCode.no_image_processing_algo_set ∨
    e = ErrorCode.no_handler_set ∨
    e = ErrorCode.model_not_added ∨
    e = ErrorCode.recognition_not_found ∨
    e = ErrorCode.config_or_recognition_not_found ∨
    e = ErrorCode.objectdetection_not_found ∨
    e = ErrorCode.model_path_not_set := by
  have hm := of_decide_eq_true h
  simpa only [List.mem_cons, List.not_mem_nil, or_false] using hm

/-- C3: `CompanionErrorUWP::getError` is total — for every `ErrorCode`
value without an explicit `case` label (out-of-range values included) it
returns the generic initial string `"Unknown Error"`. -/
theorem getError_default_when_no_case (ng : NativeCode → String)
    (e : ErrorCode) (h : e.hasCase = false) :
    CompanionErrorUWP.getError ng e = "Unknown Error" :=
  getError_no_case_default ng e h

/-- Witness for C3 at an out-of-range `ErrorCode` value. -/
theorem getError_default_when_no_case_witness :
    ErrorCode.hasCase ⟨0x12345⟩ = false ∧
    CompanionErrorUWP.getError (fun _ => "native message") ⟨0x12345⟩ =
      "Unknown Error" :=
  ⟨by decide,
   getError_default_when_no_case (fun _ => "native message") ⟨0x12345⟩
     (by decide)⟩

/-- C4: for every wrapper-local `ErrorCode`, the message returned by
`CompanionErrorUWP::getError` does not depend on the native message table
(it is a literal owned by this component) and is one of the five fixed
literal strings; being a pure function of the code, it is the same on
every call. -/
theorem getError_wrapper_local_literal (ng ng2 : NativeCode → String)
    (e : ErrorCode) (h : e.isWrapperLocal = true) :
    CompanionErrorUWP.getError ng e = CompanionErrorUWP.getError ng2 e ∧
    CompanionErrorUWP.getError ng e ∈ wrapperLocalMessages := by
  simp only [ErrorCode.isWrapperLocal, decide_eq_true_eq, List.mem_cons,
    List.not_mem_nil, or_false] at h
  rcases h with rfl | rfl | rfl | rfl | rfl
  · exact ⟨rfl, List.Mem.head _⟩
  · exact ⟨rfl, List.Mem.tail _ (List.Mem.head _)⟩
  · exact ⟨rfl, List.Mem.tail _ (List.Mem.tail _ (List.Mem.head _))⟩
  · exact ⟨rfl, List.Mem.tail _ (List.Mem.tail _ (List.Mem.tail _
      (List.Mem.head _)))⟩
  · exact ⟨rfl, List.Mem.tail _ (List.Mem.tail _ (List.Mem.tail _
      (List.Mem.tail _ (List.Mem.head _))))⟩

/-- Witness for C4 at `ErrorCode::model_not_added`, with two distinct
native message tables. -/
theorem getError_wrapper_local_literal_witness :
    ErrorCode.isWrapperLocal ErrorCode.model_not_added = true ∧
    (CompanionErrorUWP.getError (fun _ => "a") ErrorCode.model_not_added =
       CompanionErrorUWP.getError (fun _ => "b") ErrorCode.model_not_added ∧
     CompanionErrorUWP.getError (fun _ => "a") ErrorCode.model_not_added ∈
       wrapperLocalMessages) :=
  ⟨by decide,
   getError_wrapper_local_literal (fun _ => "a") (fun _ => "b")
     ErrorCode.model_not_added (by decide)⟩

/-- C5: constructing an `ImageStream` from the empty path sequence
succeeds (yields the Constructed state, no eager validation), and
construction from any path list produces one native image-stream object
over exactly those paths in the same order. -/
theorem construct_total_and_order_preserving :
    (ImageStream.construct []).imageStreamObj = some ⟨[]⟩ ∧
    ∀ v : List String, (ImageStream.construct v).imageStreamObj = some ⟨v⟩ := by
  refine ⟨rfl, fun v => ?_⟩
  simp [ImageStream.construct, marshalPaths_eq]

/-- C6: destroying a constructed `ImageStream` releases the owned native
object exactly once, moving the Constructed state directly to the
Destroyed state (native object gone), and a destructor invocation on the
Destroyed state performs no further release. -/
theorem destruct_releases_exactly_once (v : List String) :
    ((ImageStream.construct v).destruct.1.imageStreamObj = none ∧
     (ImageStream.construct v).destruct.2 = 1) ∧
    (ImageStream.construct v).destruct.1.destruct.2 = 0 :=
  ⟨⟨rfl, rfl⟩, rfl⟩

/-- C7: `getErrorCode` is injective on the mapped native codes, and each
mapped native code is sent to the platform enumerator of the same name. -/
theorem getErrorCode_injective_and_name_preserving :
    (∀ c c2 : NativeCode, c.isMapped = true → c2.isMapped = true →
      getErrorCode c = getErrorCode c2 → c = c2) ∧
    getErrorCode NativeCode.image_not_found = ErrorCode.image_not_found ∧
    getErrorCode NativeCode.dimension_error = ErrorCode.dimension_error ∧
    getErrorCode NativeCode.template_dimension_error = ErrorCode.template_dimension_error ∧
    getErrorCode NativeCode.feature_detector_not_found = ErrorCode.feature_detector_not_found ∧
    getErrorCode NativeCode.descriptor_extractor_not_found = ErrorCode.descriptor_extractor_not_found ∧
    getErrorCode NativeCode.descriptor_matcher_not_found = ErrorCode.descriptor_matcher_not_found ∧
    getErrorCode NativeCode.wrong_model_type = ErrorCode.wrong_model_type ∧
    getErrorCode NativeCode.invalid_companion_config = ErrorCode.invalid_companion_config ∧
    getErrorCode NativeCode.video_src_not_set = ErrorCode.video_src_not_set ∧
    getErrorCode NativeCode.invalid_video_src = ErrorCode.invalid_video_src ∧
    getErrorCode NativeCode.no_image_processing_algo_set = ErrorCode.no_image_processing_algo_set ∧
    getErrorCode NativeCode.no_handler_set = ErrorCode.no_handler_set := by
  refine ⟨fun c c2 h1 h2 heq => ?_, rfl, rfl, rfl, rfl, rfl, rfl, rfl, rfl,
    rfl, rfl, rfl, rfl⟩
  cases c <;> cases c2 <;>
    first
      | rfl
      | exact Bool.noConfusion h1
      | exact Bool.noConfusion h2
      | exact absurd heq (by decide)

/-- Witness for C7 at the concrete mapped code `dimension_error`. -/
theorem getErrorCode_injective_and_name_preserving_witness :
    NativeCode.isMapped NativeCode.dimension_error = true ∧
    NativeCode.dimension_error = NativeCode.dimension_error :=
  ⟨rfl, getErrorCode_injective_and_name_preserving.1
    NativeCode.dimension_error NativeCode.dimension_error rfl rfl rfl⟩

/-- C8: `CompanionErrorUWP::getError` is deterministic and side-effect
free — its result depends only on the error code and the native message
table entries: any two invocations (runs) whose native lookup functions
agree on the mapped native codes return the same string for the same
input, and nothing else influences or is changed by the call. -/
theorem getError_deterministic (ng ng2 : NativeCode → String)
    (e : ErrorCode) (h : ∀ c : NativeCode, c.isMapped = true → ng c = ng2 c) :
    CompanionErrorUWP.getError ng e = CompanionErrorUWP.getError ng2 e := by
  by_cases hc : e.hasCase = true
  · rcases hasCase_elim e hc with
      rfl | rfl | rfl | rfl | rfl | rfl | rfl | rfl | rfl | rfl | rfl | rfl |
      rfl | rfl | rfl | rfl | rfl <;>
      first | rfl | exact congrArg ss2ps (h _ rfl)
  · have hcf : e.hasCase = false := by simpa using hc
    rw [getError_no_case_default ng e hcf, getError_no_case_default ng2 e hcf]

/-- Witness for C8: two distinct native lookup functions agreeing on the
mapped codes give the same message for `dimension_error`. -/
theorem getError_deterministic_witness :
    CompanionErrorUWP.getError (fun _ => "m") ErrorCode.dimension_error =
      CompanionErrorUWP.getError
        (fun c : NativeCode => match c with | .other _ => "d" | _ => "m")
        ErrorCode.dimension_error :=
  getError_deterministic (fun _ => "m")
    (fun c : NativeCode => match c with | .other _ => "d" | _ => "m")
    ErrorCode.dimension_error
    (fun c hc => by cases c <;> first | rfl | exact Bool.noConfusion hc)

/-- C9: `ErrorCode::unknown_error` has no explicit `case` arm in the
switch of `CompanionErrorUWP::getError`, so it receives the default
initial value: the generic `"Unknown Error"` string. -/
theorem getError_unknown_error_default (ng : NativeCode → String) :
    CompanionErrorUWP.getError ng ErrorCode.unknown_error = "Unknown Error" :=
  rfl

/-- C10: the image of `getErrorCode` contains no wrapper-local code — for
every native input the result is one of the twelve mirrored platform codes
or `ErrorCode::unknown_error`. -/
theorem getErrorCode_image_no_wrapper_local (c : NativeCode) :
    (getErrorCode c).isWrapperLocal = false ∧
    getErrorCode c ∈
      [ErrorCode.unknown_error, ErrorCode.image_not_found,
       ErrorCode.dimension_error, ErrorCode.template_dimension_error,
       ErrorCode.feature_detector_not_found,
       ErrorCode.descriptor_extractor_not_found,
       ErrorCode.descriptor_matcher_not_found, ErrorCode.wrong_model_type,
       ErrorCode.invalid_companion_config, ErrorCode.video_src_not_set,
       ErrorCode.invalid_video_src, ErrorCode.no_image_processing_algo_set,
       ErrorCode.no_handler_set] := by
  cases c <;> exact ⟨rfl, by first | exact List.Mem.head _ | decide⟩

end CompanionWinRT
